import Mathlib

/-!
Verification of the voice address-extraction core
(`address_extractor.py`, `postal_code_service.py`, `japanese_address_parser.py`,
`toriyama_address_parser.py`, `realtime_speech_service.py`, `app.py`).

Python strings are embedded as `List Char` (Python operates on code points, as
does `Char`).  Python floats are embedded as `ℚ`; the float arithmetic in the
source only adds, divides, takes `min`/`max` of small decimal constants, and all
claims at stake are order/identity claims that are insensitive to binary
rounding.  Regular-expression searches from the source are embedded as
executable scanners that reproduce the leftmost-match semantics of `re.search`
and `re.finditer` for the concrete patterns appearing in the source.

The character classes of Python (`\d`, `\s`, `str.isdigit`) are Unicode-wide.
They are embedded exactly on a declared supported alphabet (`SupportedChar`):
all of ASCII, the full-width digits, the U+3000–U+30FF Japanese kana and
punctuation block (which contains every kana, the postal mark 〒 and the long
dash ー used by the source), the U+4E00–U+9FFF CJK ideograph block (every kanji
used by the source) and the minus sign U+2212.  On this alphabet Python's `\d`
and `str.isdigit` accept exactly the ASCII and full-width digits, and Python's
`\s` accepts exactly the characters listed in `isPyWhitespace`.
-/

unseal Rat.mul Rat.inv Rat.add Rat.sub Rat.ofScientific

/-- Python `\d` / `str.isdigit` on the supported alphabet: ASCII digits and
full-width digits U+FF10–U+FF19. -/
def isPyDigit (c : Char) : Bool :=
  ('0' ≤ c && c ≤ '9') || ('０' ≤ c && c ≤ '９')

/-- Python `\s` / `str.isspace` on the supported alphabet: the ASCII whitespace
characters (including the file/group/record/unit separators U+001C–U+001F,
which Python treats as whitespace) and the ideographic space U+3000. -/
def isPyWhitespace (c : Char) : Bool :=
  c == ' ' || c == '\t' || c == '\n' || c == '\r' ||
  c == '\x0b' || c == '\x0c' ||
  (0x1C ≤ c.toNat && c.toNat ≤ 0x1F) || c.toNat == 0x3000

/-- The supported alphabet on which the embedding of Python's Unicode character
classes is exact: ASCII, full-width digits, the Japanese kana/punctuation block
U+3000–U+30FF, the CJK ideographs U+4E00–U+9FFF, and the minus sign U+2212. -/
def SupportedChar (c : Char) : Prop :=
  c.toNat ≤ 0x7F ∨ (0xFF10 ≤ c.toNat ∧ c.toNat ≤ 0xFF19) ∨
  (0x3000 ≤ c.toNat ∧ c.toNat ≤ 0x30FF) ∨
  (0x4E00 ≤ c.toNat ∧ c.toNat ≤ 0x9FFF) ∨ c.toNat = 0x2212

instance (c : Char) : Decidable (SupportedChar c) := by
  unfold SupportedChar; infer_instance

/-- `str.maketrans('０１２３４５６７８９', '0123456789')` applied to one
character: map a full-width digit to the corresponding ASCII digit
(`address_extractor.py` line 145, `postal_code_service.py` line 21). -/
def toHalfwidthDigit (c : Char) : Char :=
  if '０' ≤ c && c ≤ '９' then Char.ofNat (c.toNat - 0xFF10 + 0x30) else c

/-- Fuel-bounded worker for `pyReplace`; the fuel is the length of the
subject, which suffices because each step consumes at least one character. -/
def pyReplaceAux (pat rep : List Char) : Nat → List Char → List Char
  | 0, s => s
  | _ + 1, [] => []
  | fuel + 1, c :: rest =>
    if pat.isPrefixOf (c :: rest) then
      rep ++ pyReplaceAux pat rep fuel ((c :: rest).drop pat.length)
    else
      c :: pyReplaceAux pat rep fuel rest

/-- Python `str.replace`: replace every non-overlapping occurrence of `pat`
by `rep`, scanning left to right. -/
def pyReplace (s pat rep : List Char) : List Char :=
  if pat.isEmpty then s else pyReplaceAux pat rep s.length s

/-- Python `pat in s`: substring test. -/
def containsSub (s pat : List Char) : Bool :=
  (s.tails.filter (fun t => pat.isPrefixOf t)) ≠ []

/-- Python `s.split(pat)[0]`: the prefix of `s` before the first occurrence of
`pat` (the whole of `s` when `pat` does not occur). -/
def takeBeforeFirst (s pat : List Char) : List Char :=
  if pat.isPrefixOf s then []
  else match s with
    | [] => []
    | c :: rest => c :: takeBeforeFirst rest pat

/-- Python `str.strip()`: remove leading and trailing whitespace. -/
def pyStrip (s : List Char) : List Char :=
  ((s.dropWhile isPyWhitespace).reverse.dropWhile isPyWhitespace).reverse

example : pyReplace "1の2の3".toList "の".toList "-".toList = "1-2-3".toList := by decide
example : takeBeforeFirst "abcde".toList "cd".toList = "ab".toList := by decide
example : containsSub "abcde".toList "cd".toList = true := by decide
example : pyStrip "  ab c ".toList = "ab c".toList := by decide

/-!
## DigitNormalizer
`AddressExtractor._extract_numbers_only` (`address_extractor.py` lines 134–182)
and `PostalCodeService._extract_numbers_only` (`postal_code_service.py` lines
10–54) share character for character the same normalisation prelude: full-width
to ASCII digit translation, separator-word replacement and the spoken/kanji
numeral table.  They differ only in the final digit-count decision, embedded
separately below.
-/

/-- The separator list, in source order (`separators` in both files). -/
def separatorWords : List (List Char) :=
  ["の".toList, "ノ".toList, "ハイフン".toList, "はいふん".toList,
   "だっしゅ".toList, "ダッシュ".toList, "-".toList, "ー".toList, "−".toList]

/-- The spoken/kanji numeral table `kanji_to_num`, in Python dict insertion
order (which is the order `for kanji, num in kanji_to_num.items()` replaces
in).  Note the hiragana readings present (いち, に, …) and absent (ぜろ is not
a key; only katakana ゼロ is), and that し (4) precedes しち (7). -/
def kanjiDigitPairs : List (List Char × Char) :=
  [("〇".toList, '0'), ("零".toList, '0'), ("ゼロ".toList, '0'),
   ("一".toList, '1'), ("壱".toList, '1'), ("いち".toList, '1'), ("イチ".toList, '1'),
   ("二".toList, '2'), ("弐".toList, '2'), ("に".toList, '2'), ("ニ".toList, '2'),
   ("三".toList, '3'), ("参".toList, '3'), ("さん".toList, '3'), ("サン".toList, '3'),
   ("四".toList, '4'), ("肆".toList, '4'), ("よん".toList, '4'), ("ヨン".toList, '4'),
   ("し".toList, '4'), ("シ".toList, '4'),
   ("五".toList, '5'), ("伍".toList, '5'), ("ご".toList, '5'), ("ゴ".toList, '5'),
   ("六".toList, '6'), ("陸".toList, '6'), ("ろく".toList, '6'), ("ロク".toList, '6'),
   ("七".toList, '7'), ("漆".toList, '7'), ("なな".toList, '7'), ("ナナ".toList, '7'),
   ("しち".toList, '7'), ("シチ".toList, '7'),
   ("八".toList, '8'), ("捌".toList, '8'), ("はち".toList, '8'), ("ハチ".toList, '8'),
   ("九".toList, '9'), ("玖".toList, '9'), ("きゅう".toList, '9'), ("キュウ".toList, '9'),
   ("く".toList, '9'), ("ク".toList, '9')]

/-- The shared normalisation prelude of `_extract_numbers_only`: translate
full-width digits, replace each separator word by a space, replace each
numeral reading by its digit (all in source order), then collect the digit
characters in order (`re.findall(r'\d', text)`). -/
def fallbackDigits (text : List Char) : List Char :=
  let t1 := text.map toHalfwidthDigit
  let t2 := separatorWords.foldl (fun t sep => pyReplace t sep [' ']) t1
  let t3 := kanjiDigitPairs.foldl (fun t kd => pyReplace t kd.1 [kd.2]) t2
  t3.filter isPyDigit

/-- `AddressExtractor._extract_numbers_only` (lines 171–182): exactly 7 digits
are returned as-is; exactly 6 digits are left-padded with one `'0'`; any other
count yields `None`. -/
def addressExtractorNumbersOnly (text : List Char) : Option (List Char) :=
  let numbers := fallbackDigits text
  if numbers.length = 7 then some numbers
  else if numbers.length = 6 then some ('0' :: numbers)
  else none

/-- `PostalCodeService._extract_numbers_only` (lines 47–54): only an exact
7-digit count is returned; there is no 6-digit padding branch in this file. -/
def postalServiceNumbersOnly (text : List Char) : Option (List Char) :=
  let numbers := fallbackDigits text
  if numbers.length = 7 then some numbers
  else none

/-!
## PostalCodeExtractor tier 1: the literal pattern cascade
`AddressExtractor.extract_postal_code` (lines 194–218) and
`PostalCodeService.extract_postal_code` (lines 66–89) run the identical
pattern list
`['(\d{3}[-ー]\d{4})', '(?<!\d)(\d{7})(?!\d)', '(\d{3}\s+\d{4})',
  '〒\s*(\d{3}[-ー]?\d{4})']`
with `re.search` (leftmost match), clean the group of `[-ー\s〒]`, and accept
when 7 digits remain.  Each pattern is embedded as a matcher at one position
plus a leftmost-position search.
-/

/-- Match exactly `n` digit characters, returning them and the remainder. -/
def takeDigitsN : Nat → List Char → Option (List Char × List Char)
  | 0, s => some ([], s)
  | _ + 1, [] => none
  | n + 1, c :: rest =>
    if isPyDigit c then (takeDigitsN n rest).map (fun p => (c :: p.1, p.2))
    else none

/-- Leftmost-match search: try the matcher at every position left to right
(`re.search` semantics for patterns without lookbehind). -/
def searchFrom (m : List Char → Option (List Char)) : List Char → Option (List Char)
  | [] => m []
  | c :: rest =>
    match m (c :: rest) with
    | some g => some g
    | none => searchFrom m rest

/-- `\d{3}[-ー]\d{4}` at one position. -/
def matchDashPattern (s : List Char) : Option (List Char) := do
  let (d3, r1) ← takeDigitsN 3 s
  match r1 with
  | sep :: r2 =>
    if sep == '-' || sep == 'ー' then
      (takeDigitsN 4 r2).map (fun p => d3 ++ sep :: p.1)
    else none
  | [] => none

/-- `\d{7}` with `(?!\d)` at one position (the `(?<!\d)` lookbehind is handled
by the dedicated search below). -/
def matchSevenDigits (s : List Char) : Option (List Char) := do
  let (d7, r) ← takeDigitsN 7 s
  match r with
  | [] => some d7
  | c :: _ => if isPyDigit c then none else some d7

/-- Search for `(?<!\d)(\d{7})(?!\d)`: try each position whose preceding
character is not a digit. -/
def searchSevenDigits (prev : Option Char) : List Char → Option (List Char)
  | [] => none
  | c :: rest =>
    match (if (prev.map isPyDigit).getD false then none
           else matchSevenDigits (c :: rest)) with
    | some g => some g
    | none => searchSevenDigits (some c) rest

/-- `\d{3}\s+\d{4}` at one position: three digits, a non-empty (maximal)
whitespace run, four digits.  Backtracking over `\s+` cannot succeed with a
shorter run because `\s` and `\d` are disjoint. -/
def matchSpacedPattern (s : List Char) : Option (List Char) := do
  let (d3, r1) ← takeDigitsN 3 s
  let ws := r1.takeWhile isPyWhitespace
  if ws.isEmpty then none
  else (takeDigitsN 4 (r1.dropWhile isPyWhitespace)).map (fun p => d3 ++ ws ++ p.1)

/-- `〒\s*(\d{3}[-ー]?\d{4})` at one position; the returned group excludes the
postal mark and whitespace (regex group 1).  A greedy optional separator whose
following four digits fail cannot be rescued by backtracking, because the
separator character is not a digit. -/
def matchPostalMarkPattern (s : List Char) : Option (List Char) :=
  match s with
  | '〒' :: r => do
    let r2 := r.dropWhile isPyWhitespace
    let (d3, r3) ← takeDigitsN 3 r2
    match r3 with
    | sep :: r4 =>
      if sep == '-' || sep == 'ー' then
        (takeDigitsN 4 r4).map (fun p => d3 ++ sep :: p.1)
      else (takeDigitsN 4 r3).map (fun p => d3 ++ p.1)
    | [] => none
  | _ => none

/-- The output format `f"{d[:3]}-{d[3:]}"` shared by every return site of
`extract_postal_code`. -/
def fmtPostal (ds : List Char) : List Char := ds.take 3 ++ '-' :: ds.drop 3

/-- The post-match step shared by all four patterns: strip `[-ー\s〒]` from the
matched group, and when exactly 7 digit characters remain, emit them in the
`DDD-DDDD` output format (`extract_postal_code` lines 206–211 / 77–82). -/
def cleanAndFormat (grp : List Char) : Option (List Char) :=
  let cleaned := grp.filter
    (fun c => !(c == '-' || c == 'ー' || isPyWhitespace c || c == '〒'))
  if cleaned.length = 7 && cleaned.all isPyDigit then
    some (fmtPostal cleaned)
  else none

/-- Tier 1 of `extract_postal_code`: the four literal patterns in priority
order; a pattern whose leftmost match fails the 7-digit cleaning check falls
through to the next pattern, exactly as the `for pattern in patterns` loop
does. -/
def tierOnePostalCode (s : List Char) : Option (List Char) :=
  match (searchFrom matchDashPattern s).bind cleanAndFormat with
  | some r => some r
  | none =>
    match (searchSevenDigits none s).bind cleanAndFormat with
    | some r => some r
    | none =>
      match (searchFrom matchSpacedPattern s).bind cleanAndFormat with
      | some r => some r
      | none => (searchFrom matchPostalMarkPattern s).bind cleanAndFormat

/-- `AddressExtractor.extract_postal_code` (lines 184–218): tier 1 first, then
the numbers-only fallback (with its 6-digit padding), formatted `DDD-DDDD`. -/
def addressExtractorPostalCode (s : List Char) : Option (List Char) :=
  match tierOnePostalCode s with
  | some r => some r
  | none =>
    match addressExtractorNumbersOnly s with
    | some ds =>
      if ds ≠ [] ∧ ds.length = 7 then some (fmtPostal ds) else none
    | none => none

/-- `PostalCodeService.extract_postal_code` (lines 56–89): tier 1 first, then
the numbers-only fallback of this file (7 digits only, no padding). -/
def postalServicePostalCode (s : List Char) : Option (List Char) :=
  match tierOnePostalCode s with
  | some r => some r
  | none =>
    match postalServiceNumbersOnly s with
    | some ds =>
      if ds ≠ [] ∧ ds.length = 7 then some (fmtPostal ds) else none
    | none => none

example : tierOnePostalCode "〒150-0001".toList = some "150-0001".toList := by decide
example : tierOnePostalCode "1234567".toList = some "123-4567".toList := by decide
example : tierOnePostalCode "12345678".toList = none := by decide
example : tierOnePostalCode "123 4567".toList = some "123-4567".toList := by decide
example : addressExtractorPostalCode "123456".toList = some "012-3456".toList := by decide
example : postalServicePostalCode "123456".toList = none := by decide
example : addressExtractorPostalCode "いちごーのぜろぜろぜろいち".toList = none := by decide
example : fallbackDigits "いちごーのぜろぜろぜろいち".toList = "151".toList := by decide
example : fallbackDigits "いちごーのゼロゼロゼロいち".toList = "150001".toList := by decide

/-!
## Detail-address cleanup
`AddressExtractor.extract_detail_address` (`address_extractor.py` lines
220–266): particle の → hyphen, noise character removal, end-marker split,
one trailing です strip, whitespace strip, then concatenation with the base
address.
-/

/-- The noise characters removed in step 2 (`noise_chars`). -/
def noiseChars : List Char := ['、', '。', '！', '？', '!', '?', '　']

/-- The end markers checked in step 3 (`end_markers`), most specific first;
the first marker found as a substring truncates the text (`split(marker)[0]`)
and stops the scan. -/
def endMarkers : List (List Char) :=
  ["住所です".toList, "これで終わりです".toList, "これで終わり".toList,
   "だす".toList, "である".toList]

/-- Apply the first end marker that occurs as a substring, in list order. -/
def applyEndMarkers : List (List Char) → List Char → List Char
  | [], t => t
  | m :: ms, t => if containsSub t m then takeBeforeFirst t m else applyEndMarkers ms t

/-- `AddressExtractor.extract_detail_address` (lines 220–266). -/
def extractDetailAddress (text base : List Char) : Option (List Char) :=
  if text.isEmpty then none
  else
    let t1 := pyReplace text "の".toList "-".toList
    let t2 := noiseChars.foldl (fun t c => pyReplace t [c] []) t1
    let t3 := applyEndMarkers endMarkers t2
    let t4 := if "です".toList.isSuffixOf t3 then t3.dropLast.dropLast else t3
    let t5 := pyStrip t4
    if t5.isEmpty then none
    else if base.isEmpty then some t5 else some (base ++ t5)

example : extractDetailAddress "1の2の3マンションです".toList [] =
    some "1-2-3マンション".toList := by decide

/-- `simple_text_cleanup` defined inline in the detail-address step of the
step-input tab (`app.py` lines 385–393): removes punctuation, copula and
politeness tokens and collapses whitespace, but performs no の → hyphen
replacement. -/
def simpleTextCleanup (text : List Char) : List Char :=
  let c1 := pyReplace text "、".toList []
  let c2 := pyReplace c1 "。".toList []
  let c3 := pyReplace c2 "です".toList []
  let c4 := pyReplace c3 "である".toList []
  let c5 := pyReplace c4 "にあります".toList []
  let c6 := pyReplace c5 "ます".toList []
  let c7 := pyStrip (pyReplace c6 "だ".toList [])
  c7.filter (fun c => !isPyWhitespace c)

example : simpleTextCleanup "1の2の3マンションです".toList = "1の2の3マンション".toList := by
  decide

/-!
## Address candidates (`toriyama_address_parser.py`)
The candidate dictionaries built by `ToriyamaAddressParser` are embedded as
one record type; every construction site in the source is a constructor
function below.
-/

/-- The structured components returned by the external library parser
(`result.address`), as consumed by `_calculate_toriyama_confidence`,
`_is_address_complete` and `_build_full_address`. -/
structure AddressData where
  prefecture : String
  city : String
  town : String
  rest : String
deriving DecidableEq, Repr

/-- The `building_info` dictionary produced by `_extract_building_details`. -/
structure BuildingInfo where
  building_name : String
  room_number : String
  floor : String
  block_number : String
deriving DecidableEq, Repr

/-- One address-candidate dictionary. -/
structure AddrCand where
  type : String
  address : List Char
  prefecture : String
  city : String
  town : String
  rest : String
  building_name : String
  room_number : String
  floor : String
  block_number : String
  postal_code : Option (List Char)
  confidence : ℚ
  is_complete : Bool
  source_text : List Char
deriving DecidableEq, Repr

/-- `ToriyamaAddressParser._calculate_toriyama_confidence` (lines 194–224):
weighted sum of present components and building details, capped at 1.0. -/
def calcToriyamaConfidence (d : AddressData) (b : Option BuildingInfo) : ℚ :=
  let base :=
    (if d.prefecture ≠ "" then (1/4 : ℚ) else 0) +
    (if d.city ≠ "" then (1/4 : ℚ) else 0) +
    (if d.town ≠ "" then (1/5 : ℚ) else 0) +
    (if d.rest ≠ "" then (3/20 : ℚ) else 0)
  let withBuilding :=
    match b with
    | none => base
    | some bi =>
      base +
      (if bi.building_name ≠ "" then (1/20 : ℚ) else 0) +
      (if bi.room_number ≠ "" then (1/20 : ℚ) else 0) +
      (if bi.floor ≠ "" then (3/100 : ℚ) else 0) +
      (if bi.block_number ≠ "" then (1/50 : ℚ) else 0)
  min withBuilding 1

/-- `re.search(r'\d+', t)` over the embedded alphabet: some digit occurs. -/
def hasDigitRun (s : List Char) : Bool := s.any isPyDigit

/-- `re.search(r'\d+[丁目町]', t)`: a digit immediately followed by 丁, 目 or
町 (the last digit of the run witnesses the match). -/
def hasDigitBlockMarker (s : List Char) : Bool :=
  match s with
  | [] => false
  | _ :: rest =>
    (s.zip rest).any (fun p => isPyDigit p.1 && (p.2 == '丁' || p.2 == '目' || p.2 == '町'))

/-- `re.search(r'\d+[番号地]', t)`: a digit immediately followed by 番, 号 or
地. -/
def hasDigitBanMarker (s : List Char) : Bool :=
  match s with
  | [] => false
  | _ :: rest =>
    (s.zip rest).any (fun p => isPyDigit p.1 && (p.2 == '番' || p.2 == '号' || p.2 == '地'))

/-- `re.search(r'(?:市|区|町|村)', t)`: some municipal suffix occurs. -/
def hasCitySuffix (s : List Char) : Bool :=
  s.any (fun c => c == '市' || c == '区' || c == '町' || c == '村')

/-- `ToriyamaAddressParser._calculate_fallback_confidence` (lines 226–246). -/
def calcFallbackConfidence (addressText : List Char) : ℚ :=
  let conf :=
    (if addressText.length ≥ 10 then (1/5 : ℚ) else 0) +
    (if hasDigitRun addressText then (1/5 : ℚ) else 0) +
    (if hasDigitBlockMarker addressText then (3/10 : ℚ) else 0) +
    (if hasCitySuffix addressText then (3/10 : ℚ) else 0)
  min conf 1

/-- The 47 prefecture names (identical lists in `address_extractor.py`,
`japanese_address_parser.py` and `toriyama_address_parser.py`). -/
def prefectureNames : List String :=
  ["北海道", "青森県", "岩手県", "宮城県", "秋田県", "山形県", "福島県",
   "茨城県", "栃木県", "群馬県", "埼玉県", "千葉県", "東京都", "神奈川県",
   "新潟県", "富山県", "石川県", "福井県", "山梨県", "長野県", "岐阜県",
   "静岡県", "愛知県", "三重県", "滋賀県", "京都府", "大阪府", "兵庫県",
   "奈良県", "和歌山県", "鳥取県", "島根県", "岡山県", "広島県", "山口県",
   "徳島県", "香川県", "愛媛県", "高知県", "福岡県", "佐賀県", "長崎県",
   "熊本県", "大分県", "宮崎県", "鹿児島県", "沖縄県"]

/-- The building keywords of `JapaneseAddressParser.__init__`. -/
def buildingKeywords : List String :=
  ["マンション", "アパート", "ハイツ", "コーポ", "レジデンス", "タワー",
   "ヒルズ", "パーク", "ガーデン", "プラザ", "ビル", "館", "荘", "寮",
   "ハウス", "ホーム", "メゾン", "シャトー", "パレス", "キャッスル"]

/-- `JapaneseAddressParser._calculate_address_confidence` (lines 140–168). -/
def calcJapaneseConfidence (addressText : List Char) : ℚ :=
  let conf :=
    (if prefectureNames.any (fun p => containsSub addressText p.toList) then (3/10 : ℚ) else 0) +
    (if hasCitySuffix addressText then (1/5 : ℚ) else 0) +
    (if hasDigitBlockMarker addressText then (1/5 : ℚ) else 0) +
    (if hasDigitBanMarker addressText then (1/5 : ℚ) else 0) +
    (if hasDigitRun addressText then (1/10 : ℚ) else 0) +
    (if buildingKeywords.any (fun k => containsSub addressText k.toList) then (1/10 : ℚ) else 0)
  min conf 1

/-- `ToriyamaAddressParser._is_address_complete` (lines 268–282), with the
Python truthiness of the component strings made explicit. -/
def isAddressComplete (d : AddressData) (b : Option BuildingInfo) : Bool :=
  let basic := d.prefecture ≠ "" && d.city ≠ "" && (d.town ≠ "" || d.rest ≠ "")
  match b with
  | some bi =>
    if bi.building_name ≠ "" || bi.room_number ≠ "" then basic && d.rest ≠ ""
    else basic
  | none => basic

/-- `ToriyamaAddressParser._build_full_address` (lines 248–266). -/
def buildFullAddress (d : AddressData) : List Char :=
  ((if d.prefecture ≠ "" then [d.prefecture] else []) ++
   (if d.city ≠ "" then [d.city] else []) ++
   (if d.town ≠ "" then [d.town] else []) ++
   (if d.rest ≠ "" then [d.rest] else [])).foldl (fun acc s => acc ++ s.toList) []

/-- The candidate dictionary built on the library-parse path
(`_extract_with_toriyama_parser`, lines 99–115). -/
def mkToriyamaCandidate (d : AddressData) (b : BuildingInfo) (text : List Char) : AddrCand :=
  { type := "toriyama_parsed"
    address := buildFullAddress d
    prefecture := d.prefecture
    city := d.city
    town := d.town
    rest := d.rest
    building_name := b.building_name
    room_number := b.room_number
    floor := b.floor
    block_number := b.block_number
    postal_code := none
    confidence := calcToriyamaConfidence d (some b)
    is_complete := isAddressComplete d (some b)
    source_text := text }

/-- The candidate dictionary built on the fallback-regex path
(`_extract_with_fallback_parser`, lines 163–177); `is_complete` is the
literal `False`. -/
def mkFallbackCandidate (addressText : List Char) (prefecture : String)
    (text : List Char) : AddrCand :=
  { type := "fallback_parsed"
    address := addressText
    prefecture := prefecture
    city := ""
    town := ""
    rest := ""
    building_name := ""
    room_number := ""
    floor := ""
    block_number := ""
    postal_code := none
    confidence := calcFallbackConfidence addressText
    is_complete := false
    source_text := text }

/-!
## Postal-code-anchored partial candidates
`ToriyamaAddressParser._detect_partial_addresses` (lines 284–315):
`re.finditer(r'(?:〒\s*)?(\d{3}[-−ー]?\d{4})', text)`, sep-normalisation to
`-`, a 7-digit guard, and a candidate with the literal confidence `0.8`.
-/

/-- Separator set of the partial-postal pattern: `[-−ー]`. -/
def isPartialSep (c : Char) : Bool := c == '-' || c == '−' || c == 'ー'

/-- Group 1 of `(?:〒\s*)?(\d{3}[-−ー]?\d{4})` at one position, plus the
remainder after the whole match (for `finditer` resumption).  When the
optional 〒-prefix is taken and the digits then fail, backtracking to the
prefixless alternative also fails, because 〒 is not a digit. -/
def matchPartialPostal (s : List Char) : Option (List Char × List Char) :=
  let core : List Char → Option (List Char × List Char) := fun t => do
    let (d3, r1) ← takeDigitsN 3 t
    match r1 with
    | sep :: r2 =>
      if isPartialSep sep then
        (takeDigitsN 4 r2).map (fun p => (d3 ++ sep :: p.1, p.2))
      else (takeDigitsN 4 r1).map (fun p => (d3 ++ p.1, p.2))
    | [] => none
  match s with
  | '〒' :: r => core (r.dropWhile isPyWhitespace)
  | _ => core s

/-- Fuel-bounded `re.finditer`: emit the group of each leftmost match and
resume after the match. -/
def findIterPartialAux : Nat → List Char → List (List Char)
  | 0, _ => []
  | _ + 1, [] => []
  | fuel + 1, c :: rest =>
    match matchPartialPostal (c :: rest) with
    | some (g, after) => g :: findIterPartialAux fuel after
    | none => findIterPartialAux fuel rest

/-- The candidate dictionary built for one detected postal code (lines
297–312); the confidence is the literal `0.8`. -/
def mkPartialCandidate (cleanPostal text : List Char) : AddrCand :=
  { type := "postal_code_detected"
    address := '〒' :: cleanPostal
    prefecture := ""
    city := ""
    town := ""
    rest := ""
    building_name := ""
    room_number := ""
    floor := ""
    block_number := ""
    postal_code := some cleanPostal
    confidence := 4/5
    is_complete := false
    source_text := text }

/-- `ToriyamaAddressParser._detect_partial_addresses` (lines 284–315). -/
def detectPartialAddresses (text : List Char) : List AddrCand :=
  (findIterPartialAux text.length text).filterMap (fun g =>
    let cleanPostal := g.map (fun c => if isPartialSep c then '-' else c)
    if (cleanPostal.filter (fun c => c != '-')).length = 7 then
      some (mkPartialCandidate cleanPostal text)
    else none)

example : detectPartialAddresses "〒150-0001".toList =
    [mkPartialCandidate "150-0001".toList "〒150-0001".toList] := by decide

/-!
## CandidateSelector
`ToriyamaAddressParser.get_best_address` (lines 412–434): stable descending
sort on the key `(type_priority, confidence + completeness_bonus,
len(address))` and take the head.  Python's `sorted(..., reverse=True)` is the
stable descending sort; it is embedded as Mathlib's stable `insertionSort`
with the reversed key order, which produces the identical list.
-/

/-- `type_priority` dictionary with `.get(..., 0)` default. -/
def typePriority (t : String) : Nat :=
  if t = "toriyama_parsed" then 3
  else if t = "fallback_parsed" then 2
  else if t = "postal_code_detected" then 1
  else 0

/-- The sort key of `get_best_address`. -/
def sortKey (a : AddrCand) : Nat × ℚ × Nat :=
  (typePriority a.type,
   a.confidence + (if a.is_complete then (1/10 : ℚ) else 0),
   a.address.length)

/-- Lexicographic `≤` on sort keys (Python tuple comparison). -/
def keyLexLe (a b : Nat × ℚ × Nat) : Prop :=
  a.1 < b.1 ∨ (a.1 = b.1 ∧ (a.2.1 < b.2.1 ∨ (a.2.1 = b.2.1 ∧ a.2.2 ≤ b.2.2)))

instance (a b : Nat × ℚ × Nat) : Decidable (keyLexLe a b) := by
  unfold keyLexLe; infer_instance

/-- `x` sorts no later than `y` in the descending sort: `key y ≤ key x`. -/
def candGE (x y : AddrCand) : Prop := keyLexLe (sortKey y) (sortKey x)

instance : DecidableRel candGE := fun x y => by
  unfold candGE; infer_instance

/-- `ToriyamaAddressParser.get_best_address` (lines 412–434). -/
def getBestAddress (addresses : List AddrCand) : Option AddrCand :=
  if addresses.isEmpty then none
  else (List.insertionSort candGE addresses).head?

/-!
## Assembly state machine (step-input tab of `app.py`)
The session state of tab 1 and the two transitions the claims concern: the
postal-lookup handling (lines 224–256) and the explicit next-step button
(lines 152–159).
-/

/-- `segment_current_step` values (`STEP_POSTAL_CODE`, `STEP_DETAIL_ADDRESS`,
`STEP_COMPLETE`). -/
inductive SegStep
  | postalCode
  | detailAddress
  | complete
deriving DecidableEq, Repr

/-- The `segment_*` session fields involved in the modelled transitions. -/
structure SegmentState where
  currentStep : SegStep
  recording : Bool
  postalCode : String
  baseAddress : String
  detailText : String
  finalAddress : String
  autoStopped : Bool
deriving DecidableEq, Repr

/-- The result dictionary of the postal lookup collaborator as consumed by
the step handler (`address_result['success'] / ['full_address'] /
['error']`). -/
structure LookupResult where
  success : Bool
  fullAddress : String
  error : String
deriving DecidableEq, Repr

/-- The `STEP_POSTAL_CODE` lookup handling (`app.py` lines 224–256), entered
once a postal code has been extracted: store the extracted code; on success
store the full address and stop the recognition producer if it was recording
(setting the auto-stop flag); on failure leave the state otherwise unchanged
and surface the error message (the second component) via `st.error`.  No
branch assigns `segment_current_step`. -/
def handlePostalLookup (s : SegmentState) (extracted : String) (r : LookupResult) :
    SegmentState × Option String :=
  let s1 := { s with postalCode := extracted }
  if r.success then
    let s2 := { s1 with baseAddress := r.fullAddress }
    if s2.recording then
      ({ s2 with recording := false, autoStopped := true }, none)
    else (s2, none)
  else (s1, some ("住所検索エラー: " ++ r.error))

/-- The explicit "next step" button (`app.py` lines 152–159): set the step to
`STEP_DETAIL_ADDRESS` and stop the recognition producer if it was
recording. -/
def nextStepButton (s : SegmentState) : SegmentState :=
  let s1 := { s with currentStep := SegStep.detailAddress }
  if s1.recording then { s1 with recording := false } else s1

/-!
## Performance statistics
`RealtimeSpeechService._update_performance_stats` (lines 341–368) with the
initial values of `_initialize_session_state` (lines 243–250).  The state
carries only the five scalar fields below — no history of past times — and
`float('inf')` is embedded as `⊤` of `WithTop ℚ`.
-/

/-- The `performance_stats` dictionary. -/
structure PerfStats where
  total_extractions : Nat
  avg_time_ms : ℚ
  min_time_ms : WithTop ℚ
  max_time_ms : ℚ
  fast_extractions : Nat
deriving DecidableEq, Repr

/-- Initial statistics (`_initialize_session_state` lines 244–250). -/
def initPerfStats : PerfStats :=
  { total_extractions := 0
    avg_time_ms := 0
    min_time_ms := ⊤
    max_time_ms := 0
    fast_extractions := 0 }

/-- `_update_performance_stats` (lines 341–368) for one observed extraction
time `t` (`timing['total_ms']`). -/
def updatePerfStats (s : PerfStats) (t : ℚ) : PerfStats :=
  let count := s.total_extractions + 1
  { total_extractions := count
    min_time_ms := min s.min_time_ms (t : WithTop ℚ)
    max_time_ms := max s.max_time_ms t
    avg_time_ms := (s.avg_time_ms * ((count : ℚ) - 1) + t) / (count : ℚ)
    fast_extractions := if t < 500 then s.fast_extractions + 1 else s.fast_extractions }

/-!
## Postal lookup input guard
`PostalCodeService.get_address_by_postal_code` (lines 113–178).  The method's
pre-network portion is embedded as a function from the input string to either
an early failure result or the request it would issue; the network call and
response handling are external collaborators.
-/

/-- Either the early validation failure (`success: False` with the error
message, returned before any request) or the issued request with its
`zipcode` parameter. -/
inductive LookupAction
  | rejected (error : String)
  | request (zipcode : List Char)
deriving DecidableEq, Repr

/-- The validation prefix of `get_address_by_postal_code` (lines 123–136):
strip `-` and `ー`, then require exactly 7 characters, all satisfying
Python `str.isdigit`, before building the request. -/
def getAddressByPostalCodePre (postalCode : List Char) : LookupAction :=
  let cleaned := pyReplace (pyReplace postalCode "-".toList []) "ー".toList []
  if cleaned.length ≠ 7 ∨ ¬ cleaned.all isPyDigit then
    LookupAction.rejected "無効な郵便番号形式です"
  else LookupAction.request cleaned

example : getAddressByPostalCodePre "150-0001".toList =
    LookupAction.request "1500001".toList := by decide
example : getAddressByPostalCodePre "123-456".toList =
    LookupAction.rejected "無効な郵便番号形式です" := by decide
example : getAddressByPostalCodePre "０１２３４５６".toList =
    LookupAction.request "０１２３４５６".toList := by decide

/-!
## Helper lemmas
-/

/-- A guarded non-negative summand is non-negative. -/
theorem ifGuardNonneg (p : Prop) [Decidable p] (a : ℚ) (h : 0 ≤ a) :
    0 ≤ if p then a else 0 := by
  split
  · exact h
  · exact le_refl 0

/-- Sort keys compare reflexively under the lexicographic order. -/
theorem keyLexLeRefl (k : Nat × ℚ × Nat) : keyLexLe k k :=
  Or.inr ⟨rfl, Or.inr ⟨rfl, le_refl _⟩⟩

/-!
## Claims
-/

/-- Claim C4: the detail-text cleanup of `AddressExtractor.extract_detail_address`
applied to `"1の2の3マンションです"` (with no base address) yields
`"1-2-3マンション"`: each occurrence of の is replaced by a hyphen, and the
trailing politeness marker です is stripped exactly once. -/
theorem detailCleanupScenario :
    extractDetailAddress "1の2の3マンションです".toList [] =
      some "1-2-3マンション".toList := by
  decide

/-- Claim C3 (counterexample): on the spoken-form input
`"いちごーのぜろぜろぜろいち"`, `AddressExtractor.extract_postal_code` does
not return `"150-0001"` — it returns `None`, because the numeral table maps
only katakana ゼロ and not hiragana ぜろ, so just three digit characters
(1, 5, 1) survive normalisation. -/
theorem spokenPostalScenarioFails :
    addressExtractorPostalCode "いちごーのぜろぜろぜろいち".toList ≠
      some "150-0001".toList := by
  decide

/-- Claim C3 (amended): both extractors return absent on
`"いちごーのぜろぜろぜろいち"`; the kana/kanji fallback tier normalises it to
only the three digits 1, 5, 1 (ぜろ is not in the numeral table), so the
7-or-6-digit rule rejects it.  Even with katakana ゼロ the input would carry
six digits and pad to `"015-0001"`, never `"150-0001"`. -/
theorem spokenPostalScenarioActual :
    addressExtractorPostalCode "いちごーのぜろぜろぜろいち".toList = none ∧
    postalServicePostalCode "いちごーのぜろぜろぜろいち".toList = none ∧
    fallbackDigits "いちごーのぜろぜろぜろいち".toList = "151".toList ∧
    addressExtractorPostalCode "いちごーのゼロゼロゼロいち".toList =
      some "015-0001".toList := by
  refine ⟨by decide, by decide, by decide, by decide⟩

/-- Claim C1 (counterexample): on `"123456"` every tier-1 literal pattern
fails and exactly six digit characters survive normalisation, yet
`PostalCodeService.extract_postal_code` returns `None` — this realisation of
`PostalCodeExtractor.extract` has no 6-digit left-padding branch, while
`AddressExtractor.extract_postal_code` pads and returns `"012-3456"`. -/
theorem fallbackPadCounterexample :
    tierOnePostalCode "123456".toList = none ∧
    fallbackDigits "123456".toList = "123456".toList ∧
    postalServicePostalCode "123456".toList = none ∧
    addressExtractorPostalCode "123456".toList = some "012-3456".toList := by
  refine ⟨by decide, by decide, by decide, by decide⟩

/-- Claim C1 (amended): whenever tier 1 fails, `AddressExtractor`'s extractor
returns the collected digits for an exact 7-digit count, left-pads one zero
for an exact 6-digit count and otherwise returns absent, while
`PostalCodeService`'s extractor accepts only an exact 7-digit count and
returns absent in every other case (including 6 digits). -/
theorem fallbackDigitRule (s : List Char) (h : tierOnePostalCode s = none) :
    addressExtractorPostalCode s =
      (if (fallbackDigits s).length = 7 then some (fmtPostal (fallbackDigits s))
       else if (fallbackDigits s).length = 6 then some (fmtPostal ('0' :: fallbackDigits s))
       else none) ∧
    postalServicePostalCode s =
      (if (fallbackDigits s).length = 7 then some (fmtPostal (fallbackDigits s))
       else none) := by
  unfold addressExtractorPostalCode postalServicePostalCode
  rw [h]
  unfold addressExtractorNumbersOnly postalServiceNumbersOnly
  by_cases h7 : (fallbackDigits s).length = 7
  · have hne : fallbackDigits s ≠ [] := by
      intro hnil
      rw [hnil] at h7
      exact absurd h7 (by decide)
    simp [h7, hne]
  · by_cases h6 : (fallbackDigits s).length = 6
    · simp [h7, h6]
    · simp [h7, h6]

/-- Claim C1 (witness): `"12 34567"` defeats every tier-1 pattern yet carries
seven digits, and both extractors return `"123-4567"` through the fallback. -/
theorem fallbackDigitRuleWitness :
    tierOnePostalCode "12 34567".toList = none ∧
    addressExtractorPostalCode "12 34567".toList =
      (if (fallbackDigits "12 34567".toList).length = 7 then
        some (fmtPostal (fallbackDigits "12 34567".toList))
       else if (fallbackDigits "12 34567".toList).length = 6 then
        some (fmtPostal ('0' :: fallbackDigits "12 34567".toList))
       else none) ∧
    postalServicePostalCode "12 34567".toList =
      (if (fallbackDigits "12 34567".toList).length = 7 then
        some (fmtPostal (fallbackDigits "12 34567".toList))
       else none) := by
  have h := fallbackDigitRule "12 34567".toList (by decide)
  exact ⟨by decide, h.1, h.2⟩

/-- Claim C2 (counterexample): in the `STEP_POSTAL_CODE` step, a successful
lookup does not advance the session — from a recording postal-code-step state,
the success branch leaves `segment_current_step` at `STEP_POSTAL_CODE` (the
advance to `STEP_DETAIL_ADDRESS` happens only through the explicit next-step
button). -/
theorem lookupSuccessStaysCounterexample :
    (handlePostalLookup
        { currentStep := SegStep.postalCode, recording := true, postalCode := "",
          baseAddress := "", detailText := "", finalAddress := "", autoStopped := false }
        "150-0001"
        { success := true, fullAddress := "東京都渋谷区神南", error := "" }).1.currentStep =
      SegStep.postalCode ∧
    SegStep.postalCode ≠ SegStep.detailAddress := by
  refine ⟨by decide, by decide⟩

/-- Claim C2 (amended): on lookup success the session stores the returned
base address, stops the recognition producer, surfaces no error and stays in
its current step (it does not auto-advance); on failure it stays in its
current step with the base address unchanged and surfaces the error; the
explicit next-step action transitions to exactly `STEP_DETAIL_ADDRESS`
(stopping the producer), never skipping a step. -/
theorem assemblyStepTransitions (s : SegmentState) (ex : String) (r : LookupResult) :
    (r.success = true →
      (handlePostalLookup s ex r).1.currentStep = s.currentStep ∧
      (handlePostalLookup s ex r).1.baseAddress = r.fullAddress ∧
      (handlePostalLookup s ex r).1.recording = false ∧
      (handlePostalLookup s ex r).2 = none) ∧
    (r.success = false →
      (handlePostalLookup s ex r).1.currentStep = s.currentStep ∧
      (handlePostalLookup s ex r).1.baseAddress = s.baseAddress ∧
      (handlePostalLookup s ex r).1.recording = s.recording ∧
      (handlePostalLookup s ex r).2 = some ("住所検索エラー: " ++ r.error)) ∧
    ((nextStepButton s).currentStep = SegStep.detailAddress ∧
      (nextStepButton s).recording = false) := by
  refine ⟨?_, ?_, ?_⟩
  · intro hs
    unfold handlePostalLookup
    rw [hs]
    by_cases hr : s.recording <;> simp [hr]
  · intro hs
    unfold handlePostalLookup
    rw [hs]
    simp
  · unfold nextStepButton
    by_cases hr : s.recording <;> simp [hr]

/-- Claim C2 (witness): the amended transition facts evaluated on a concrete
recording postal-code-step state and a successful lookup result. -/
theorem assemblyStepTransitionsWitness :
    (handlePostalLookup
        { currentStep := SegStep.postalCode, recording := true, postalCode := "",
          baseAddress := "", detailText := "", finalAddress := "", autoStopped := false }
        "150-0001"
        { success := true, fullAddress := "東京都渋谷区神南", error := "" }).1.baseAddress =
        "東京都渋谷区神南" ∧
    (nextStepButton
        { currentStep := SegStep.postalCode, recording := true, postalCode := "150-0001",
          baseAddress := "東京都渋谷区神南", detailText := "", finalAddress := "",
          autoStopped := false }).currentStep = SegStep.detailAddress := by
  refine ⟨((assemblyStepTransitions _ "150-0001" _).1 rfl).2.1, ?_⟩
  exact (assemblyStepTransitions
    { currentStep := SegStep.postalCode, recording := true, postalCode := "150-0001",
      baseAddress := "東京都渋谷区神南", detailText := "", finalAddress := "",
      autoStopped := false } "" { success := true, fullAddress := "", error := "" }).2.2.1

/-- Claim C5: `get_best_address` returns absent on the empty list, the unique
element on every singleton list, the same result on every repeated call over
the same list, and resolves candidates whose three sort keys all tie to the
first-inserted one (the stable descending sort keeps insertion order among
equals). -/
theorem selectBestSpec :
    getBestAddress [] = none ∧
    (∀ a, getBestAddress [a] = some a) ∧
    (∀ l, getBestAddress l = getBestAddress l) ∧
    (∀ a l, (∀ b ∈ l, sortKey b = sortKey a) → getBestAddress (a :: l) = some a) := by
  refine ⟨rfl, fun a => rfl, fun l => rfl, ?_⟩
  intro a l h
  have hall : ∀ x ∈ a :: l, ∀ y ∈ a :: l, candGE x y := by
    intro x hx y hy
    have kx : sortKey x = sortKey a := by
      rcases List.mem_cons.mp hx with hxa | hxl
      · rw [hxa]
      · exact h x hxl
    have ky : sortKey y = sortKey a := by
      rcases List.mem_cons.mp hy with hya | hyl
      · rw [hya]
      · exact h y hyl
    unfold candGE
    rw [kx, ky]
    exact keyLexLeRefl _
  have hsorted : List.Sorted candGE (a :: l) :=
    List.pairwise_of_forall_mem_list hall
  unfold getBestAddress
  rw [List.Sorted.insertionSort_eq hsorted]
  rfl

/-- Claim C5 (witness): two distinct candidates agreeing on type priority,
adjusted confidence and address length are resolved to the first of the
list. -/
theorem selectBestSpecWitness :
    getBestAddress
      [mkFallbackCandidate "東京都渋谷区1".toList "東京都" "東京都渋谷区1".toList,
       mkFallbackCandidate "東京都新宿区2".toList "東京都" "東京都新宿区2".toList] =
    some (mkFallbackCandidate "東京都渋谷区1".toList "東京都" "東京都渋谷区1".toList) := by
  exact selectBestSpec.2.2.2
    (mkFallbackCandidate "東京都渋谷区1".toList "東京都" "東京都渋谷区1".toList)
    [mkFallbackCandidate "東京都新宿区2".toList "東京都" "東京都新宿区2".toList]
    (by decide)

/-- Claim C6 (counterexample): the postal-code-anchored candidate that
`_detect_partial_addresses` produces for `"〒150-0001"` has confidence 0.8,
not 0.9. -/
theorem partialConfidenceCounterexample :
    detectPartialAddresses "〒150-0001".toList =
      [mkPartialCandidate "150-0001".toList "〒150-0001".toList] ∧
    (mkPartialCandidate "150-0001".toList "〒150-0001".toList).confidence ≠ 9/10 := by
  refine ⟨by decide, by decide⟩

/-- Claim C6 (amended): every candidate produced by
`ToriyamaAddressParser._detect_partial_addresses` — the kind
`postal_code_detected` — has confidence exactly 0.8. -/
theorem partialConfidenceUniform (text : List Char) (c : AddrCand)
    (hc : c ∈ detectPartialAddresses text) :
    c.confidence = 4/5 ∧ c.type = "postal_code_detected" := by
  unfold detectPartialAddresses at hc
  rw [List.mem_filterMap] at hc
  obtain ⟨g, _, hg⟩ := hc
  by_cases h7 :
      ((g.map (fun ch => if isPartialSep ch then '-' else ch)).filter
        (fun ch => ch != '-')).length = 7
  · rw [if_pos h7] at hg
    cases hg
    exact ⟨rfl, rfl⟩
  · rw [if_neg h7] at hg
    cases hg

/-- Claim C6 (witness): the amended confidence fact evaluated on the concrete
detection over `"〒150-0001"`. -/
theorem partialConfidenceUniformWitness :
    (mkPartialCandidate "150-0001".toList "〒150-0001".toList).confidence = 4/5 ∧
    (mkPartialCandidate "150-0001".toList "〒150-0001".toList).type =
      "postal_code_detected" :=
  partialConfidenceUniform "〒150-0001".toList
    (mkPartialCandidate "150-0001".toList "〒150-0001".toList) (by decide)

/-- Claim C7: on every construction path — the library-parse path, the
fallback-regex path and the postal-code-detection path — a candidate whose
`is_complete` flag is true has non-empty prefecture and city and a non-empty
town or rest. -/
theorem completeImpliesComponents :
    (∀ d b text, (mkToriyamaCandidate d b text).is_complete = true →
      (mkToriyamaCandidate d b text).prefecture ≠ "" ∧
      (mkToriyamaCandidate d b text).city ≠ "" ∧
      ((mkToriyamaCandidate d b text).town ≠ "" ∨
        (mkToriyamaCandidate d b text).rest ≠ "")) ∧
    (∀ a p text, (mkFallbackCandidate a p text).is_complete = true →
      (mkFallbackCandidate a p text).prefecture ≠ "" ∧
      (mkFallbackCandidate a p text).city ≠ "" ∧
      ((mkFallbackCandidate a p text).town ≠ "" ∨
        (mkFallbackCandidate a p text).rest ≠ "")) ∧
    (∀ text c, c ∈ detectPartialAddresses text → c.is_complete = true →
      c.prefecture ≠ "" ∧ c.city ≠ "" ∧ (c.town ≠ "" ∨ c.rest ≠ "")) := by
  refine ⟨?_, ?_, ?_⟩
  · intro d b text h
    simp only [mkToriyamaCandidate] at h ⊢
    unfold isAddressComplete at h
    have hb : (d.prefecture ≠ "" && d.city ≠ "" && (d.town ≠ "" || d.rest ≠ "")
        : Bool) = true := by
      dsimp only at h
      split at h
      · rw [Bool.and_eq_true] at h
        exact h.1
      · exact h
    simp only [Bool.and_eq_true, Bool.or_eq_true, decide_eq_true_eq] at hb
    exact ⟨hb.1.1, hb.1.2, hb.2⟩
  · intro a p text h
    simp only [mkFallbackCandidate] at h
    exact absurd h (by decide)
  · intro text c hc h
    unfold detectPartialAddresses at hc
    rw [List.mem_filterMap] at hc
    obtain ⟨g, _, hg⟩ := hc
    by_cases h7 :
        ((g.map (fun ch => if isPartialSep ch then '-' else ch)).filter
          (fun ch => ch != '-')).length = 7
    · rw [if_pos h7] at hg
      cases hg
      simp only [mkPartialCandidate] at h
      exact absurd h (by decide)
    · rw [if_neg h7] at hg
      cases hg

/-- Claim C7 (witness): the invariant evaluated on a concrete complete
library-parse candidate. -/
theorem completeImpliesComponentsWitness :
    (mkToriyamaCandidate
        { prefecture := "東京都", city := "渋谷区", town := "神南", rest := "" }
        { building_name := "", room_number := "", floor := "", block_number := "" }
        []).prefecture ≠ "" ∧
    (mkToriyamaCandidate
        { prefecture := "東京都", city := "渋谷区", town := "神南", rest := "" }
        { building_name := "", room_number := "", floor := "", block_number := "" }
        []).city ≠ "" ∧
    ((mkToriyamaCandidate
        { prefecture := "東京都", city := "渋谷区", town := "神南", rest := "" }
        { building_name := "", room_number := "", floor := "", block_number := "" }
        []).town ≠ "" ∨
      (mkToriyamaCandidate
        { prefecture := "東京都", city := "渋谷区", town := "神南", rest := "" }
        { building_name := "", room_number := "", floor := "", block_number := "" }
        []).rest ≠ "") :=
  completeImpliesComponents.1
    { prefecture := "東京都", city := "渋谷区", town := "神南", rest := "" }
    { building_name := "", room_number := "", floor := "", block_number := "" }
    [] (by decide)

/-- Claim C8: each of the three confidence computations — the structured
library-parse scorer, the fallback-text scorer and the
`JapaneseAddressParser` scorer — stays within `[0, 1]` for every combination
of present or absent inputs. -/
theorem confidenceWithinUnit :
    (∀ d b, 0 ≤ calcToriyamaConfidence d b ∧ calcToriyamaConfidence d b ≤ 1) ∧
    (∀ t, 0 ≤ calcFallbackConfidence t ∧ calcFallbackConfidence t ≤ 1) ∧
    (∀ t, 0 ≤ calcJapaneseConfidence t ∧ calcJapaneseConfidence t ≤ 1) := by
  refine ⟨?_, ?_, ?_⟩
  · intro d b
    unfold calcToriyamaConfidence
    refine ⟨le_min ?_ (by norm_num), min_le_right _ _⟩
    cases b <;>
      dsimp only <;>
      repeat' first
        | apply add_nonneg
        | exact ifGuardNonneg _ _ (by norm_num)
  · intro t
    unfold calcFallbackConfidence
    refine ⟨le_min ?_ (by norm_num), min_le_right _ _⟩
    dsimp only
    repeat' first
      | apply add_nonneg
      | exact ifGuardNonneg _ _ (by norm_num)
  · intro t
    unfold calcJapaneseConfidence
    refine ⟨le_min ?_ (by norm_num), min_le_right _ _⟩
    dsimp only
    repeat' first
      | apply add_nonneg
      | exact ifGuardNonneg _ _ (by norm_num)

/-- Folding the statistics update adds the number of observed times to the
extraction count. -/
theorem perfFoldCount (ts : List ℚ) (s : PerfStats) :
    (ts.foldl updatePerfStats s).total_extractions = s.total_extractions + ts.length := by
  induction ts generalizing s with
  | nil => simp
  | cons t ts ih =>
    rw [List.foldl_cons, ih]
    simp only [updatePerfStats, List.length_cons]
    omega

/-- Folding the statistics update maintains `avg · count = sum`: the
incremental mean update is exact over `ℚ`. -/
theorem perfFoldAvg (ts : List ℚ) (s : PerfStats) :
    (ts.foldl updatePerfStats s).avg_time_ms *
      ((s.total_extractions : ℚ) + ts.length) =
    s.avg_time_ms * s.total_extractions + ts.sum := by
  induction ts generalizing s with
  | nil => simp
  | cons t ts ih =>
    rw [List.foldl_cons]
    have hcast : ((s.total_extractions : ℚ) + (t :: ts).length) =
        (((updatePerfStats s t).total_extractions : ℚ) + ts.length) := by
      simp only [updatePerfStats, List.length_cons]
      push_cast
      ring
    rw [hcast, ih]
    have hne : ((s.total_extractions : ℚ) + 1) ≠ 0 := by positivity
    simp only [updatePerfStats, List.sum_cons]
    push_cast
    field_simp
    ring

/-- The minimum field of the folded statistics is the fold of `min` over the
observed times. -/
theorem perfFoldMin (ts : List ℚ) (s : PerfStats) :
    (ts.foldl updatePerfStats s).min_time_ms =
      ts.foldl (fun m (t : ℚ) => min m ((t : WithTop ℚ))) s.min_time_ms := by
  induction ts generalizing s with
  | nil => rfl
  | cons t ts ih =>
    rw [List.foldl_cons, List.foldl_cons]
    exact ih (updatePerfStats s t)

/-- The maximum field of the folded statistics is the fold of `max` over the
observed times. -/
theorem perfFoldMax (ts : List ℚ) (s : PerfStats) :
    (ts.foldl updatePerfStats s).max_time_ms = ts.foldl max s.max_time_ms := by
  induction ts generalizing s with
  | nil => rfl
  | cons t ts ih =>
    rw [List.foldl_cons, List.foldl_cons]
    exact ih (updatePerfStats s t)

/-- A `min`-fold over a linear order is the initial value or a list element,
bounds every list element from below, and bounds the initial value. -/
theorem foldlMinSpec {α : Type} [LinearOrder α] (ts : List α) (a : α) :
    (ts.foldl min a = a ∨ ts.foldl min a ∈ ts) ∧
    (∀ t ∈ ts, ts.foldl min a ≤ t) ∧ ts.foldl min a ≤ a := by
  induction ts generalizing a with
  | nil => exact ⟨Or.inl rfl, by simp, le_refl a⟩
  | cons t ts ih =>
    obtain ⟨hmem, hle, hinit⟩ := ih (min a t)
    rw [List.foldl_cons]
    refine ⟨?_, ?_, le_trans hinit (min_le_left a t)⟩
    · rcases hmem with h | h
      · rcases min_choice a t with he | he
        · exact Or.inl (h.trans he)
        · refine Or.inr ?_
          rw [h, he]
          exact List.mem_cons_self t ts
      · exact Or.inr (List.mem_cons_of_mem t h)
    · intro x hx
      rcases List.mem_cons.mp hx with rfl | hx
      · exact le_trans hinit (min_le_right a x)
      · exact hle x hx

/-- A `max`-fold over a linear order is the initial value or a list element,
bounds every list element from above, and bounds the initial value. -/
theorem foldlMaxSpec {α : Type} [LinearOrder α] (ts : List α) (a : α) :
    (ts.foldl max a = a ∨ ts.foldl max a ∈ ts) ∧
    (∀ t ∈ ts, t ≤ ts.foldl max a) ∧ a ≤ ts.foldl max a := by
  induction ts generalizing a with
  | nil => exact ⟨Or.inl rfl, by simp, le_refl a⟩
  | cons t ts ih =>
    obtain ⟨hmem, hle, hinit⟩ := ih (max a t)
    rw [List.foldl_cons]
    refine ⟨?_, ?_, le_trans (le_max_left a t) hinit⟩
    · rcases hmem with h | h
      · rcases max_choice a t with he | he
        · exact Or.inl (h.trans he)
        · refine Or.inr ?_
          rw [h, he]
          exact List.mem_cons_self t ts
      · exact Or.inr (List.mem_cons_of_mem t h)
    · intro x hx
      rcases List.mem_cons.mp hx with rfl | hx
      · exact le_trans (le_max_right a x) hinit
      · exact hle x hx

/-- Claim C9: after any non-empty sequence of performance-statistics updates
with the observed (non-negative) extraction times `ts`, the state holds the
count `ts.length`, the exact arithmetic mean, the least observed time (the
`⊤` initialisation embeds `float('inf')`), and the greatest observed time —
all maintained incrementally from the running count, the state carrying no
history of past times. -/
theorem perfStatsSpec (ts : List ℚ) (hne : ts ≠ []) (hnn : ∀ t ∈ ts, 0 ≤ t) :
    (ts.foldl updatePerfStats initPerfStats).total_extractions = ts.length ∧
    (ts.foldl updatePerfStats initPerfStats).avg_time_ms = ts.sum / ts.length ∧
    (∃ m ∈ ts, (ts.foldl updatePerfStats initPerfStats).min_time_ms = (m : WithTop ℚ) ∧
      ∀ t ∈ ts, m ≤ t) ∧
    ((ts.foldl updatePerfStats initPerfStats).max_time_ms ∈ ts ∧
      ∀ t ∈ ts, t ≤ (ts.foldl updatePerfStats initPerfStats).max_time_ms) := by
  have hlen : (ts.length : ℚ) ≠ 0 :=
    Nat.cast_ne_zero.mpr (Nat.pos_iff_ne_zero.mp (List.length_pos.mpr hne))
  refine ⟨?_, ?_, ?_, ?_⟩
  · rw [perfFoldCount]
    simp [initPerfStats]
  · have h := perfFoldAvg ts initPerfStats
    simp only [initPerfStats, Nat.cast_zero, zero_add, zero_mul] at h
    rw [eq_div_iff hlen]
    exact h
  · rw [perfFoldMin]
    have hmap : ts.foldl (fun m (t : ℚ) => min m ((t : WithTop ℚ)))
        initPerfStats.min_time_ms =
        (ts.map (fun t : ℚ => (t : WithTop ℚ))).foldl min ⊤ := by
      rw [List.foldl_map]
      rfl
    rw [hmap]
    obtain ⟨hmem, hle, _⟩ := foldlMinSpec (ts.map (fun t : ℚ => (t : WithTop ℚ))) ⊤
    rcases hmem with h | h
    · obtain ⟨t0, ht0⟩ := List.exists_mem_of_ne_nil ts hne
      have hle0 := hle ((t0 : WithTop ℚ))
        (List.mem_map_of_mem (fun t : ℚ => (t : WithTop ℚ)) ht0)
      rw [h] at hle0
      exact absurd (top_le_iff.mp hle0) (by simp)
    · rw [List.mem_map] at h
      obtain ⟨m, hm, hme⟩ := h
      refine ⟨m, hm, hme.symm, ?_⟩
      intro t ht
      have hle1 := hle ((t : WithTop ℚ))
        (List.mem_map_of_mem (fun t : ℚ => (t : WithTop ℚ)) ht)
      rw [← hme] at hle1
      exact_mod_cast hle1
  · rw [perfFoldMax]
    have hinit0 : initPerfStats.max_time_ms = (0 : ℚ) := rfl
    rw [hinit0]
    obtain ⟨hmem, hle, _⟩ := foldlMaxSpec ts (0 : ℚ)
    rcases hmem with h | h
    · obtain ⟨t0, ht0⟩ := List.exists_mem_of_ne_nil ts hne
      have h1 : t0 ≤ (0 : ℚ) := h ▸ hle t0 ht0
      have h3 : t0 = 0 := le_antisymm h1 (hnn t0 ht0)
      refine ⟨?_, hle⟩
      rw [h, ← h3]
      exact ht0
    · exact ⟨h, hle⟩

/-- Claim C9 (witness): the statistics facts evaluated over the concrete
observation sequence `[100, 50, 200]`. -/
theorem perfStatsSpecWitness :
    (([100, 50, 200] : List ℚ).foldl updatePerfStats initPerfStats).total_extractions =
      ([100, 50, 200] : List ℚ).length ∧
    (([100, 50, 200] : List ℚ).foldl updatePerfStats initPerfStats).avg_time_ms =
      ([100, 50, 200] : List ℚ).sum / (([100, 50, 200] : List ℚ).length : ℚ) ∧
    (∃ m ∈ ([100, 50, 200] : List ℚ),
      (([100, 50, 200] : List ℚ).foldl updatePerfStats initPerfStats).min_time_ms =
        (m : WithTop ℚ) ∧ ∀ t ∈ ([100, 50, 200] : List ℚ), m ≤ t) :=
  have h := perfStatsSpec [100, 50, 200] (by decide) (by decide)
  ⟨h.1, h.2.1, h.2.2.1⟩

/-- Claim C10 (counterexample): the seven full-width digits `"０１２３４５６"`
are unchanged by hyphen removal and are not ASCII digits, yet
`get_address_by_postal_code` passes its guard and issues the lookup request —
Python's `str.isdigit` also accepts full-width digits, so "7 ASCII digits" is
not the guard the code implements. -/
theorem lookupGuardCounterexample :
    getAddressByPostalCodePre "０１２３４５６".toList =
      LookupAction.request "０１２３４５６".toList ∧
    ("０１２３４５６".toList.all Char.isDigit) = false ∧
    "０１２３４５６".toList.length = 7 := by
  refine ⟨by decide, by decide, by decide⟩

/-- Claim C10 (amended): for every input over the supported alphabet whose
hyphen-stripped form is not exactly 7 characters accepted by Python's
`str.isdigit` (on this alphabet: ASCII or full-width digits), the lookup
returns the early failure with its fixed non-empty error message and never
issues the request; the validator mutates nothing (it is a pure function of
the input). -/
theorem lookupGuardRejects (s : List Char) (_hs : ∀ c ∈ s, SupportedChar c)
    (h : ¬ ((pyReplace (pyReplace s "-".toList []) "ー".toList []).length = 7 ∧
        (pyReplace (pyReplace s "-".toList []) "ー".toList []).all isPyDigit = true)) :
    getAddressByPostalCodePre s = LookupAction.rejected "無効な郵便番号形式です" ∧
    ("無効な郵便番号形式です" : String) ≠ "" := by
  refine ⟨?_, by decide⟩
  unfold getAddressByPostalCodePre
  rw [if_pos]
  rw [Decidable.not_and_iff_or_not] at h
  rcases h with h | h
  · exact Or.inl h
  · exact Or.inr (by simpa using h)

/-- Claim C10 (witness): the guard rejects the six-digit input `"123-456"`
without issuing a request. -/
theorem lookupGuardRejectsWitness :
    getAddressByPostalCodePre "123-456".toList =
      LookupAction.rejected "無効な郵便番号形式です" ∧
    ("無効な郵便番号形式です" : String) ≠ "" :=
  lookupGuardRejects "123-456".toList (by decide) (by decide)
